import Mathlib

/-
Verification of the statement-level parser and intermediate-code emission
engine of the cx compiler front end (src/src/parse_statement.cpp).

The parser functions of the source file are embedded shallowly, with an
explicit parser state (remaining token input, the append-only intermediate
code stream, the location-marker table, the reported-error list) and a fuel
argument that bounds the recursion depth of the mutually recursive descent.
External collaborators that are not part of the repository source (the token
cursor, the expression subsystem, the type-compatibility checker, the error
sink, the resynchronisation token sets) are modelled from the specification;
each such definition is marked with a doc comment starting with
Modelled from the spec.
-/

namespace CxStmt

/-- Statically known scalar/enumeration type forms of the type descriptors
(the source tests p_expr_type->form against fc_enum). -/
inductive cx_type_form where
  | fc_scalar
  | fc_enum
  deriving DecidableEq, Repr

/-- Type descriptors handed back by the expression subsystem.  The source
compares against the predefined p_integer_type and p_char_type descriptors,
tests for boolean in check_boolean, and uses the enumeration form. -/
inductive cx_type where
  | ty_integer
  | ty_char
  | ty_boolean
  | ty_float
  | ty_enum
  | ty_dummy
  deriving DecidableEq, Repr

/-- Form tag of a type descriptor: only enumerations have form fc_enum. -/
def cx_type.form : cx_type → cx_type_form
  | .ty_enum => .fc_enum
  | _ => .fc_scalar

/-- The source calls base_type() on the selector type; with no subrange
types in the model the base type is the type itself. -/
def cx_type.base_type (t : cx_type) : cx_type := t

/-- Token codes of the closed token enumeration used by the dispatcher. -/
inductive cx_token_code where
  | tc_dummy
  | tc_identifier
  | tc_number
  | tc_string
  | tc_plus
  | tc_minus
  | tc_star
  | tc_equal
  | tc_equal_equal
  | tc_semicolon
  | tc_colon
  | tc_left_paren
  | tc_right_paren
  | tc_left_bracket
  | tc_right_bracket
  | tc_pound
  | tc_CONST
  | tc_DO
  | tc_WHILE
  | tc_IF
  | tc_ELSE
  | tc_FOR
  | tc_SWITCH
  | tc_CASE
  | tc_DEFAULT
  | tc_BREAK
  | tc_RETURN
  | tc_end_of_file
  deriving DecidableEq, Repr

/-- A token: code plus the literal text (p_token->string__()) and the
literal's type (p_token->type(), meaningful for number literals). -/
structure cx_token where
  code : cx_token_code
  string__ : String
  ty : cx_type
  deriving DecidableEq, Repr

/-- Error codes reported through the error sink by this source file. -/
inductive cx_error_code where
  | err_missing_WHILE
  | err_missing_left_paren
  | err_missing_right_paren
  | err_missing_semicolon
  | err_missing_colon
  | err_missing_right_bracket
  | err_incompatible_types
  | err_invalid_constant
  | err_undefined_identifier
  deriving DecidableEq, Repr

/-- Routine kinds: defn.routine.which of the enclosing routine; the compound
block parser special-cases func_std_iterator. -/
inductive cx_define_code where
  | func_declared
  | func_standard
  | func_std_iterator
  deriving DecidableEq, Repr

/-- The enclosing routine's symbol-table node: its routine kind and its
declared return type (p_function_id->p_type). -/
structure cx_symtab_node where
  which : cx_define_code
  p_type : cx_type
  deriving DecidableEq, Repr

/-- One unit of the intermediate code stream: an appended token or a
reserved location-marker placeholder slot (identified by marker id). -/
inductive icode_unit where
  | tok (t : cx_token)
  | marker (id : Nat)
  deriving DecidableEq, Repr

/-- Book-keeping for one reserved location marker: the stream position of
its placeholder slot, the backpatched target position (none until fixed
up), and a ghost count of how many fixups were applied to it. -/
structure marker_info where
  pos : Nat
  target : Option Nat
  fixups : Nat
  deriving DecidableEq, Repr

/-- The shared mutable parser state threaded through every routine: the
remaining token input (the head is the lookahead token), the append-only
intermediate code stream, the marker table, the error-sink log, the
read-only symbol table, and a ghost count of dispatcher invocations. -/
structure parser_state where
  input : List cx_token
  icode : List icode_unit
  nmarkers : Nat
  markers : Nat → marker_info
  errors : List cx_error_code
  symtab : List (String × cx_type)
  dispatch_count : Nat

/-- The end-of-input token returned by the cursor once input is exhausted. -/
def eof_token : cx_token := ⟨.tc_end_of_file, "", .ty_dummy⟩

/-- The current lookahead token (p_token). -/
def parser_state.p_token (s : parser_state) : cx_token :=
  s.input.headD eof_token

/-- The current lookahead token code (the global named token in the source). -/
def parser_state.token (s : parser_state) : cx_token_code :=
  s.p_token.code

/-- Modelled from the spec: the Token Cursor's advance operation without
recording into the stream (get_token). -/
def get_token (s : parser_state) : parser_state :=
  { s with input := s.input.tail }

/-- Modelled from the spec: the Token Cursor's advance operation that
records the consumed token into the Intermediate Code Stream
(get_token_append). -/
def get_token_append (s : parser_state) : parser_state :=
  { s with input := s.input.tail, icode := s.icode ++ [.tok s.p_token] }

/-- Modelled from the spec: the Error Sink records a categorized error
without stopping the pass (cx_error). -/
def cx_error (e : cx_error_code) (s : parser_state) : parser_state :=
  { s with errors := s.errors ++ [e] }

/-- Modelled from the spec: require a token; consume and record it when
present, report the given error and leave the cursor in place otherwise
(conditional_get_token_append). -/
def conditional_get_token_append (tc : cx_token_code) (e : cx_error_code)
    (s : parser_state) : parser_state :=
  if s.token = tc then get_token_append s else cx_error e s

/-- Modelled from the spec: reserve a location marker: append a placeholder
slot to the Intermediate Code Stream and return its opaque id
(put_location_marker). -/
def put_location_marker (s : parser_state) : parser_state × Nat :=
  ({ s with
      icode := s.icode ++ [.marker s.nmarkers],
      nmarkers := s.nmarkers + 1,
      markers := fun j =>
        if j = s.nmarkers then ⟨s.icode.length, none, 0⟩ else s.markers j },
   s.nmarkers)

/-- Modelled from the spec: fix up a reserved marker by writing the current
stream position into it (fixup_location_marker); the ghost fixup count of
that marker is incremented. -/
def fixup_location_marker (i : Nat) (s : parser_state) : parser_state :=
  { s with
      markers := fun j =>
        if j = i then ⟨(s.markers i).pos, some s.icode.length, (s.markers i).fixups + 1⟩
        else s.markers j }

/-- Modelled from the spec: the spec's Intermediate Code Stream model does
not include source-line markers, so line-marker insertion is a no-op. -/
def insert_line_marker (s : parser_state) : parser_state := s

/-- Modelled from the spec: the statement-start token set used by
resynchronisation (tokens that may begin a statement, per the dispatcher's
dispatch table). -/
def tokenlist_statement_start : List cx_token_code :=
  [.tc_identifier, .tc_CONST, .tc_DO, .tc_WHILE, .tc_IF, .tc_FOR,
   .tc_SWITCH, .tc_BREAK, .tc_left_bracket, .tc_RETURN, .tc_pound]

/-- Modelled from the spec: the statement-follow token set used by
resynchronisation (tokens legally allowed immediately after a statement). -/
def tokenlist_statement_follow : List cx_token_code :=
  [.tc_semicolon, .tc_right_bracket, .tc_ELSE, .tc_WHILE, .tc_end_of_file]

/-- The unary sign operators accepted in front of a case label
(tokenlist_unary_ops). -/
def tokenlist_unary_ops : List cx_token_code :=
  [.tc_plus, .tc_minus]

/-- Membership of a token code in a token list (token_in). -/
def token_in (t : cx_token_code) (l : List cx_token_code) : Bool :=
  decide (t ∈ l)

/-- Discard input tokens until one whose code lies in the union of the two
given token sets, or end-of-input, is reached. -/
def resync_input (follow start : List cx_token_code) :
    List cx_token → List cx_token
  | [] => []
  | t :: rest =>
    if t.code ∈ follow ∨ t.code ∈ start then t :: rest
    else resync_input follow start rest

/-- Modelled from the spec: error recovery discards tokens one at a time
until reaching a token in the union of the statement-follow and
statement-start sets, or end-of-input (resync). -/
def resync (follow start : List cx_token_code) (s : parser_state) : parser_state :=
  { s with input := resync_input follow start s.input }

/-- The inline separator-consumption loop of the source
(while token is a semicolon, get_token_append): every consecutive
semicolon is consumed and recorded. -/
def skip_append_semicolons (s : parser_state) : parser_state :=
  { s with
      input := s.input.dropWhile (fun t => t.code = .tc_semicolon),
      icode := s.icode ++
        (s.input.takeWhile (fun t => t.code = .tc_semicolon)).map .tok }

/-- Modelled from the spec: the Symbol Table lookup (search_all), returning
the type bound to a name when the name is declared. -/
def search_all (s : parser_state) (name : String) : Option cx_type :=
  (s.symtab.find? (fun p => p.1 = name)).map Prod.snd

/-- Modelled from the spec: tokens that can belong to an expression, used
to delimit the extent of an expression parse. -/
def expression_token (t : cx_token) : Bool :=
  match t.code with
  | .tc_identifier => true
  | .tc_number => true
  | .tc_string => true
  | .tc_plus => true
  | .tc_minus => true
  | .tc_star => true
  | .tc_equal_equal => true
  | _ => false

/-- Modelled from the spec: the type descriptor the expression subsystem
reports for a parsed run of expression tokens: comparisons yield boolean,
otherwise the type of the leading operand (number literals carry their
type, identifiers are looked up in the symbol table, a three-character
string literal is a character). -/
def expression_type (s : parser_state) (run : List cx_token) : cx_type :=
  if run.any (fun t => t.code = .tc_equal_equal) then .ty_boolean
  else
    match run.head? with
    | some t =>
      match t.code with
      | .tc_number => t.ty
      | .tc_identifier => (search_all s t.string__).getD .ty_dummy
      | .tc_string => if t.string__.length = 3 then .ty_char else .ty_dummy
      | _ => .ty_dummy
    | none => .ty_dummy

/-- Modelled from the spec: the external expression parser consumes the
expression's tokens, appends them to the Intermediate Code Stream as a side
effect, and returns the expression's type descriptor (parse_expression). -/
def parse_expression (s : parser_state) : parser_state × cx_type :=
  let run := s.input.takeWhile expression_token
  ({ s with
      input := s.input.dropWhile expression_token,
      icode := s.icode ++ run.map .tok },
   expression_type s run)

/-- Modelled from the spec: require a condition's type to be boolean,
reporting a non-fatal incompatible-types error otherwise (check_boolean). -/
def check_boolean (t : cx_type) (s : parser_state) : parser_state :=
  if t = .ty_boolean then s else cx_error .err_incompatible_types s

/-- Modelled from the spec: assignment compatibility between a target and a
source type descriptor, modelled as equality of the type descriptors. -/
def assignment_compatible (target source : cx_type) : Bool :=
  decide (target = source)

/-- Modelled from the spec: check assignment compatibility and report the
given non-fatal error on mismatch (check_assignment_type_compatible). -/
def check_assignment_type_compatible (target source : cx_type)
    (e : cx_error_code) (s : parser_state) : parser_state :=
  if assignment_compatible target source then s else cx_error e s

/-- Modelled from the spec: declaration-or-assignment handling is an
external subsystem; modelled as consuming and recording the leading
identifier and, when an assignment operator follows, the operator and the
assigned expression (parse_declarations_or_assignment). -/
def parse_declarations_or_assignment (_p_function_id : cx_symtab_node)
    (s : parser_state) : parser_state :=
  let s := get_token_append s
  if s.token = .tc_equal then
    let s := get_token_append s
    (parse_expression s).1
  else s

/-- Modelled from the spec: constant declaration parsing is external;
modelled like a declaration with an initialising expression
(parse_constant_declaration). -/
def parse_constant_declaration (_p_function_id : cx_symtab_node)
    (s : parser_state) : parser_state :=
  let s := get_token_append s
  if s.token = .tc_equal then
    let s := get_token_append s
    (parse_expression s).1
  else s

/-- Modelled from the spec: directive execution is external; modelled as
consuming the directive's token without recording it
(parse_execute_directive). -/
def parse_execute_directive (_p_function_id : cx_symtab_node)
    (s : parser_state) : parser_state :=
  get_token s

/-- parse_RETURN: consume the return keyword, parse the returned
expression, and check assignment compatibility of the enclosing routine's
declared return type with the expression's type. -/
def parse_RETURN (p_function_id : cx_symtab_node) (s : parser_state) : parser_state :=
  let s := get_token_append s
  let r := parse_expression s
  check_assignment_type_compatible p_function_id.p_type r.2
    .err_incompatible_types r.1

/-- The dispatcher's trailing recovery step: if the cursor is not at
end-of-input, resynchronise on the statement follow/start sets. -/
def statement_resync (s : parser_state) : parser_state :=
  if s.token ≠ .tc_end_of_file then
    resync tokenlist_statement_follow tokenlist_statement_start s
  else s

/-- The unary-sign step of parse_case_label: when the lookahead is a unary
sign operator, consume and record it. -/
def case_label_sign (s : parser_state) : parser_state :=
  if token_in s.token tokenlist_unary_ops = true then get_token_append s else s

/-- The case-label validator switch of parse_case_label: an identifier must
be declared (else undefined-identifier) and is consumed; a number must be
an integer literal (else invalid-constant) and is consumed; a string is
valid only when unsigned and of literal length exactly three (else
invalid-constant) and is never consumed; anything else is left alone. -/
def case_label_value (sign_flag : Bool) (s : parser_state) : parser_state :=
  match s.token with
  | .tc_identifier =>
    let s :=
      if (search_all s s.p_token.string__).isNone then
        cx_error .err_undefined_identifier s
      else s
    get_token_append s
  | .tc_number =>
    let s :=
      if s.p_token.ty ≠ .ty_integer then cx_error .err_invalid_constant s
      else s
    get_token_append s
  | .tc_string =>
    if sign_flag = true ∨ s.p_token.string__.length ≠ 3 then
      cx_error .err_invalid_constant s
    else s
  | _ => s

mutual

/-- parse_statement: dispatch on the lookahead token to the statement-form
handlers (the ghost dispatch count is incremented per invocation), then,
when not at end-of-input, resynchronise on the statement follow/start
sets.  The fuel argument bounds the recursion depth; none means the fuel
was exhausted. -/
def parse_statement (fuel : Nat) (p_function_id : cx_symtab_node)
    (s : parser_state) : Option parser_state :=
  match fuel with
  | 0 => none
  | fuel + 1 =>
    let s := { s with dispatch_count := s.dispatch_count + 1 }
    let s := insert_line_marker s
    (match s.token with
      | .tc_identifier => some (parse_declarations_or_assignment p_function_id s)
      | .tc_CONST => some (parse_constant_declaration p_function_id (get_token_append s))
      | .tc_DO => parse_DO fuel p_function_id s
      | .tc_WHILE => parse_WHILE fuel p_function_id s
      | .tc_IF => parse_IF fuel p_function_id s
      | .tc_FOR => parse_FOR fuel p_function_id s
      | .tc_SWITCH => parse_SWITCH fuel p_function_id s
      | .tc_BREAK => some (get_token_append s)
      | .tc_left_bracket => parse_compound fuel p_function_id s
      | .tc_RETURN => some (parse_RETURN p_function_id s)
      | .tc_pound => some (parse_execute_directive p_function_id (get_token s))
      | _ => some s).map statement_resync

/-- parse_statement_list: repeatedly parse a statement and consume any run
of consecutive separators, until the terminator or end-of-input is the
current token. -/
def parse_statement_list (fuel : Nat) (p_function_id : cx_symtab_node)
    (terminator : cx_token_code) (s : parser_state) : Option parser_state :=
  match fuel with
  | 0 => none
  | fuel + 1 =>
    match parse_statement fuel p_function_id s with
    | none => none
    | some s =>
      let s := skip_append_semicolons s
      if s.token ≠ terminator ∧ s.token ≠ .tc_end_of_file then
        parse_statement_list fuel p_function_id terminator s
      else some s

/-- parse_DO: reserve the exit marker, consume the do keyword, parse the
guarded statement list up to the while keyword, require while and the
parenthesised boolean condition, then fix up the exit marker. -/
def parse_DO (fuel : Nat) (p_function_id : cx_symtab_node)
    (s : parser_state) : Option parser_state :=
  match fuel with
  | 0 => none
  | fuel + 1 =>
    let pm := put_location_marker s
    let break_point := pm.2
    let s := get_token_append pm.1
    match parse_statement_list fuel p_function_id .tc_WHILE s with
    | none => none
    | some s =>
      let s := conditional_get_token_append .tc_WHILE .err_missing_WHILE s
      let s := conditional_get_token_append .tc_left_paren .err_missing_left_paren s
      let r := parse_expression s
      let s := check_boolean r.2 r.1
      let s := conditional_get_token_append .tc_right_paren .err_missing_right_paren s
      some (fixup_location_marker break_point s)

/-- parse_WHILE: reserve the exit marker, consume the while keyword,
require the parenthesised boolean condition, parse one statement, then fix
up the exit marker. -/
def parse_WHILE (fuel : Nat) (p_function_id : cx_symtab_node)
    (s : parser_state) : Option parser_state :=
  match fuel with
  | 0 => none
  | fuel + 1 =>
    let pm := put_location_marker s
    let break_point := pm.2
    let s := get_token_append pm.1
    let s := conditional_get_token_append .tc_left_paren .err_missing_left_paren s
    let r := parse_expression s
    let s := check_boolean r.2 r.1
    let s := conditional_get_token_append .tc_right_paren .err_missing_right_paren s
    match parse_statement fuel p_function_id s with
    | none => none
    | some s => some (fixup_location_marker break_point s)

/-- parse_IF: reserve the false-branch marker before consuming the if
keyword, require the parenthesised boolean condition, parse the then
statement and stray separators, fix up the false-branch marker; when an
else follows, reserve the skip-else marker before consuming else, parse
the else statement and stray separators, and fix up that marker. -/
def parse_IF (fuel : Nat) (p_function_id : cx_symtab_node)
    (s : parser_state) : Option parser_state :=
  match fuel with
  | 0 => none
  | fuel + 1 =>
    let pm := put_location_marker s
    let at_false_location_marker := pm.2
    let s := get_token_append pm.1
    let s := conditional_get_token_append .tc_left_paren .err_missing_left_paren s
    let r := parse_expression s
    let s := check_boolean r.2 r.1
    let s := conditional_get_token_append .tc_right_paren .err_missing_right_paren s
    match parse_statement fuel p_function_id s with
    | none => none
    | some s =>
      let s := skip_append_semicolons s
      let s := fixup_location_marker at_false_location_marker s
      if s.token = .tc_ELSE then
        let pm2 := put_location_marker s
        let at_follow_location_marker := pm2.2
        let s := get_token_append pm2.1
        match parse_statement fuel p_function_id s with
        | none => none
        | some s =>
          let s := skip_append_semicolons s
          some (fixup_location_marker at_follow_location_marker s)
      else some s

/-- parse_FOR: reserve, in order, the exit, body-start, condition-start and
increment-start markers before consuming the for keyword; parse the init
clause, fix up condition-start, parse the condition clause, fix up
increment-start, parse the increment clause, require the closing
parenthesis, fix up body-start, parse the body statement, and fix up the
exit marker. -/
def parse_FOR (fuel : Nat) (p_function_id : cx_symtab_node)
    (s : parser_state) : Option parser_state :=
  match fuel with
  | 0 => none
  | fuel + 1 =>
    let pm1 := put_location_marker s
    let break_point := pm1.2
    let pm2 := put_location_marker pm1.1
    let statementMarker := pm2.2
    let pm3 := put_location_marker pm2.1
    let condition_marker := pm3.2
    let pm4 := put_location_marker pm3.1
    let increment_marker := pm4.2
    let s := get_token_append pm4.1
    let s := conditional_get_token_append .tc_left_paren .err_missing_left_paren s
    let s :=
      if s.token ≠ .tc_semicolon then
        let s := parse_declarations_or_assignment p_function_id s
        conditional_get_token_append .tc_semicolon .err_missing_semicolon s
      else get_token_append s
    let s := fixup_location_marker condition_marker s
    let s :=
      if s.token ≠ .tc_semicolon then
        let r := parse_expression s
        let s := check_boolean r.2 r.1
        conditional_get_token_append .tc_semicolon .err_missing_semicolon s
      else get_token_append s
    let s := fixup_location_marker increment_marker s
    let s :=
      if s.token ≠ .tc_right_paren then (parse_expression s).1
      else s
    let s := conditional_get_token_append .tc_right_paren .err_missing_right_paren s
    let s := fixup_location_marker statementMarker s
    match parse_statement fuel p_function_id s with
    | none => none
    | some s => some (fixup_location_marker break_point s)

/-- parse_SWITCH: consume the switch keyword, require the parenthesised
selector expression, report incompatible types unless the selector's base
type is integer, character or an enumeration, then parse the single
controlled statement. -/
def parse_SWITCH (fuel : Nat) (p_function_id : cx_symtab_node)
    (s : parser_state) : Option parser_state :=
  match fuel with
  | 0 => none
  | fuel + 1 =>
    let s := get_token_append s
    let s := conditional_get_token_append .tc_left_paren .err_missing_left_paren s
    let r := parse_expression s
    let p_expr_type := r.2.base_type
    let s := conditional_get_token_append .tc_right_paren .err_missing_right_paren r.1
    let s :=
      if p_expr_type ≠ .ty_integer ∧ p_expr_type ≠ .ty_char ∧
          p_expr_type.form ≠ .fc_enum then
        cx_error .err_incompatible_types s
      else s
    parse_statement fuel p_function_id s

/-- parse_compound: consume the opening bracket, parse the statement list
up to the closing bracket; a standard-iterator routine returns without
requiring the closing bracket, every other routine kind requires it. -/
def parse_compound (fuel : Nat) (p_function_id : cx_symtab_node)
    (s : parser_state) : Option parser_state :=
  match fuel with
  | 0 => none
  | fuel + 1 =>
    let s := get_token_append s
    match parse_statement_list fuel p_function_id .tc_right_bracket s with
    | none => none
    | some s =>
      if p_function_id.which = .func_std_iterator then some s
      else some (conditional_get_token_append .tc_right_bracket
        .err_missing_right_bracket s)

/-- parse_case_label: consume the case keyword, note and consume a unary
sign, validate the label (declared identifier, integer number, or
unsigned three-character string literal, the string never being
consumed), require the colon, and parse the branch statement list up to
the break keyword. -/
def parse_case_label (fuel : Nat) (p_function_id : cx_symtab_node)
    (_p_expr_type : cx_type) (s : parser_state) : Option parser_state :=
  match fuel with
  | 0 => none
  | fuel + 1 =>
    let s := get_token_append s
    let sign_flag := token_in s.token tokenlist_unary_ops
    let s := case_label_sign s
    let s := case_label_value sign_flag s
    let s := conditional_get_token_append .tc_colon .err_missing_colon s
    parse_statement_list fuel p_function_id .tc_BREAK s

end

/-! Invariant machinery.  pure_ok relates a state to the result of a step
that leaves the marker table untouched and only appends to the stream;
markers_ok states the backpatch discipline: markers reserved before the
step are left untouched (so none is fixed up twice by the step), and every
marker reserved during the step has been fixed up exactly once by the end
of the step. -/

/-- A step that does not touch the marker table and only appends icode. -/
def pure_ok (s s1 : parser_state) : Prop :=
  s1.markers = s.markers ∧ s1.nmarkers = s.nmarkers ∧ s.icode <+: s1.icode

/-- Marker discipline across a step: previously reserved markers are
unchanged, and all markers reserved during the step end with exactly one
fixup. -/
def markers_ok (s s1 : parser_state) : Prop :=
  s.nmarkers ≤ s1.nmarkers ∧
  (∀ i < s.nmarkers, s1.markers i = s.markers i) ∧
  (∀ i < s1.nmarkers, s.nmarkers ≤ i → (s1.markers i).fixups = 1)

/-- Full step invariant: the stream is only appended to and the marker
discipline holds. -/
def step_ok (s s1 : parser_state) : Prop :=
  s.icode <+: s1.icode ∧ markers_ok s s1

theorem pure_ok_refl (s : parser_state) : pure_ok s s :=
  ⟨rfl, rfl, List.prefix_rfl⟩

theorem pure_ok.trans {s t u : parser_state} (h1 : pure_ok s t)
    (h2 : pure_ok t u) : pure_ok s u :=
  ⟨h2.1.trans h1.1, h2.2.1.trans h1.2.1, h1.2.2.trans h2.2.2⟩

theorem step_ok_of_pure {s s1 : parser_state} (h : pure_ok s s1) : step_ok s s1 := by
  refine ⟨h.2.2, le_of_eq h.2.1.symm, fun i _ => by rw [h.1], fun i hi1 hi2 => ?_⟩
  rw [h.2.1] at hi1
  omega

theorem step_ok_refl (s : parser_state) : step_ok s s :=
  step_ok_of_pure (pure_ok_refl s)

theorem step_ok_trans {s t u : parser_state} (h1 : step_ok s t)
    (h2 : step_ok t u) : step_ok s u := by
  have hp1 := h1.1
  have hle1 := h1.2.1
  have hold1 := h1.2.2.1
  have hnew1 := h1.2.2.2
  have hp2 := h2.1
  have hle2 := h2.2.1
  have hold2 := h2.2.2.1
  have hnew2 := h2.2.2.2
  refine ⟨hp1.trans hp2, hle1.trans hle2, ?_, ?_⟩
  · intro i hi
    rw [hold2 i (lt_of_lt_of_le hi hle1), hold1 i hi]
  · intro i hi hsi
    by_cases hmid : i < t.nmarkers
    · rw [hold2 i hmid]
      exact hnew1 i hmid hsi
    · exact hnew2 i hi (le_of_not_lt hmid)

theorem step_ok.trans_pure {s t u : parser_state} (h1 : step_ok s t)
    (h2 : pure_ok t u) : step_ok s u :=
  step_ok_trans h1 (step_ok_of_pure h2)

theorem pure_ok.trans_step {s t u : parser_state} (h1 : pure_ok s t)
    (h2 : step_ok t u) : step_ok s u :=
  step_ok_trans (step_ok_of_pure h1) h2

theorem pure_ok_ite (c : Prop) [Decidable c] (s a b : parser_state)
    (ha : pure_ok s a) (hb : pure_ok s b) : pure_ok s (if c then a else b) := by
  split
  · exact ha
  · exact hb

theorem pure_ok_get_token (s : parser_state) : pure_ok s (get_token s) :=
  ⟨rfl, rfl, List.prefix_rfl⟩

theorem pure_ok_get_token_append (s : parser_state) :
    pure_ok s (get_token_append s) :=
  ⟨rfl, rfl, List.prefix_append _ _⟩

theorem pure_ok_cx_error (e : cx_error_code) (s : parser_state) :
    pure_ok s (cx_error e s) :=
  ⟨rfl, rfl, List.prefix_rfl⟩

theorem pure_ok_conditional_get_token_append (tc : cx_token_code)
    (e : cx_error_code) (s : parser_state) :
    pure_ok s (conditional_get_token_append tc e s) := by
  unfold conditional_get_token_append
  split
  · exact pure_ok_get_token_append s
  · exact pure_ok_cx_error e s

theorem pure_ok_insert_line_marker (s : parser_state) :
    pure_ok s (insert_line_marker s) :=
  pure_ok_refl s

theorem pure_ok_resync (follow start : List cx_token_code) (s : parser_state) :
    pure_ok s (resync follow start s) :=
  ⟨rfl, rfl, List.prefix_rfl⟩

theorem pure_ok_statement_resync (s : parser_state) :
    pure_ok s (statement_resync s) := by
  unfold statement_resync
  split
  · exact pure_ok_resync _ _ s
  · exact pure_ok_refl s

theorem pure_ok_skip_append_semicolons (s : parser_state) :
    pure_ok s (skip_append_semicolons s) :=
  ⟨rfl, rfl, List.prefix_append _ _⟩

theorem pure_ok_parse_expression (s : parser_state) :
    pure_ok s (parse_expression s).1 :=
  ⟨rfl, rfl, List.prefix_append _ _⟩

theorem pure_ok_check_boolean (t : cx_type) (s : parser_state) :
    pure_ok s (check_boolean t s) := by
  unfold check_boolean
  split
  · exact pure_ok_refl s
  · exact pure_ok_cx_error _ s

theorem pure_ok_check_assignment_type_compatible (t1 t2 : cx_type)
    (e : cx_error_code) (s : parser_state) :
    pure_ok s (check_assignment_type_compatible t1 t2 e s) := by
  unfold check_assignment_type_compatible
  split
  · exact pure_ok_refl s
  · exact pure_ok_cx_error _ s

theorem pure_ok_parse_declarations_or_assignment (p : cx_symtab_node)
    (s : parser_state) : pure_ok s (parse_declarations_or_assignment p s) := by
  unfold parse_declarations_or_assignment
  refine (pure_ok_get_token_append s).trans ?_
  dsimp only
  split
  · exact (pure_ok_get_token_append _).trans (pure_ok_parse_expression _)
  · exact pure_ok_refl _

theorem pure_ok_parse_constant_declaration (p : cx_symtab_node)
    (s : parser_state) : pure_ok s (parse_constant_declaration p s) := by
  unfold parse_constant_declaration
  refine (pure_ok_get_token_append s).trans ?_
  dsimp only
  split
  · exact (pure_ok_get_token_append _).trans (pure_ok_parse_expression _)
  · exact pure_ok_refl _

theorem pure_ok_parse_execute_directive (p : cx_symtab_node)
    (s : parser_state) : pure_ok s (parse_execute_directive p s) :=
  pure_ok_get_token s

theorem pure_ok_parse_RETURN (p : cx_symtab_node) (s : parser_state) :
    pure_ok s (parse_RETURN p s) := by
  unfold parse_RETURN
  exact (pure_ok_get_token_append s).trans
    ((pure_ok_parse_expression _).trans
      (pure_ok_check_assignment_type_compatible _ _ _ _))

theorem pure_ok_case_label_sign (s : parser_state) :
    pure_ok s (case_label_sign s) := by
  unfold case_label_sign
  split
  · exact pure_ok_get_token_append s
  · exact pure_ok_refl s

theorem pure_ok_case_label_value (sign_flag : Bool) (s : parser_state) :
    pure_ok s (case_label_value sign_flag s) := by
  unfold case_label_value
  split
  · exact (pure_ok_ite _ _ _ _ (pure_ok_cx_error _ _) (pure_ok_refl _)).trans
      (pure_ok_get_token_append _)
  · exact (pure_ok_ite _ _ _ _ (pure_ok_cx_error _ _) (pure_ok_refl _)).trans
      (pure_ok_get_token_append _)
  · exact pure_ok_ite _ _ _ _ (pure_ok_cx_error _ _) (pure_ok_refl _)
  · exact pure_ok_refl _

theorem pure_ok_bump (s : parser_state) (n : Nat) :
    pure_ok s { s with dispatch_count := n } :=
  ⟨rfl, rfl, List.prefix_rfl⟩

theorem put_snd (s : parser_state) : (put_location_marker s).2 = s.nmarkers := rfl

theorem put_icode (s : parser_state) :
    (put_location_marker s).1.icode = s.icode ++ [.marker s.nmarkers] := rfl

theorem put_nmarkers (s : parser_state) :
    (put_location_marker s).1.nmarkers = s.nmarkers + 1 := rfl

theorem put_markers_self (s : parser_state) :
    (put_location_marker s).1.markers s.nmarkers = ⟨s.icode.length, none, 0⟩ := by
  simp [put_location_marker]

theorem put_markers_ne (s : parser_state) (j : Nat) (h : j ≠ s.nmarkers) :
    (put_location_marker s).1.markers j = s.markers j := by
  simp [put_location_marker, h]

theorem fixup_icode (i : Nat) (s : parser_state) :
    (fixup_location_marker i s).icode = s.icode := rfl

theorem fixup_nmarkers (i : Nat) (s : parser_state) :
    (fixup_location_marker i s).nmarkers = s.nmarkers := rfl

theorem fixup_markers_self (i : Nat) (s : parser_state) :
    (fixup_location_marker i s).markers i =
      ⟨(s.markers i).pos, some s.icode.length, (s.markers i).fixups + 1⟩ := by
  simp [fixup_location_marker]

theorem fixup_markers_ne (i j : Nat) (s : parser_state) (h : j ≠ i) :
    (fixup_location_marker i s).markers j = s.markers j := by
  simp [fixup_location_marker, h]

/-- The reserve/backpatch bracket of the do, while and if statements: a
marker is reserved, an inner step respecting the discipline runs, and the
marker is fixed up; the whole bracket respects the discipline. -/
theorem step_ok_bracket {s v : parser_state}
    (hmid : step_ok (put_location_marker s).1 v) :
    step_ok s (fixup_location_marker s.nmarkers v) := by
  have hpre := hmid.1
  have hle := hmid.2.1
  have hold := hmid.2.2.1
  have hnew := hmid.2.2.2
  rw [put_nmarkers] at hle
  refine ⟨?_, ?_, ?_, ?_⟩
  · rw [fixup_icode]
    exact (List.prefix_append _ _).trans ((put_icode s ▸ hpre))
  · rw [fixup_nmarkers]
    omega
  · intro i hi
    rw [fixup_markers_ne _ _ _ (Nat.ne_of_lt hi),
      hold i (by rw [put_nmarkers]; omega), put_markers_ne s i (Nat.ne_of_lt hi)]
  · intro i hi hsi
    rw [fixup_nmarkers] at hi
    by_cases hcase : i = s.nmarkers
    · subst hcase
      rw [fixup_markers_self]
      rw [hold s.nmarkers (by rw [put_nmarkers]; omega), put_markers_self]
    · rw [fixup_markers_ne _ _ _ hcase]
      exact hnew i hi (by rw [put_nmarkers]; omega)

/-- The four-marker reserve/backpatch pattern of the for statement: four
markers are reserved up front, three pure stretches and one inner
statement parse run in between, and each marker is fixed up exactly once
(condition-start, increment-start, body-start, exit); the whole pattern
respects the discipline. -/
theorem step_ok_for_shape {s b d g x : parser_state}
    (hb : pure_ok (put_location_marker (put_location_marker
      (put_location_marker (put_location_marker s).1).1).1).1 b)
    (hd : pure_ok (fixup_location_marker (s.nmarkers + 1 + 1) b) d)
    (hg : pure_ok (fixup_location_marker (s.nmarkers + 1 + 1 + 1) d) g)
    (hx : step_ok (fixup_location_marker (s.nmarkers + 1) g) x) :
    step_ok s (fixup_location_marker s.nmarkers x) := by
  have hxpre := hx.1
  have hxle := hx.2.1
  have hxold := hx.2.2.1
  have hxnew := hx.2.2.2
  rw [fixup_nmarkers] at hxle
  have hgn : g.nmarkers = s.nmarkers + 4 := by
    rw [hg.2.1, fixup_nmarkers, hd.2.1, fixup_nmarkers, hb.2.1,
      put_nmarkers, put_nmarkers, put_nmarkers, put_nmarkers]
  have hgm : ∀ j, j ≠ s.nmarkers + 1 + 1 → j ≠ s.nmarkers + 1 + 1 + 1 →
      g.markers j = b.markers j := by
    intro j h2 h3
    rw [hg.1, fixup_markers_ne _ _ _ h3, hd.1, fixup_markers_ne _ _ _ h2]
  have hxoldm : ∀ j, j < s.nmarkers + 4 → j ≠ s.nmarkers + 1 →
      x.markers j = g.markers j := by
    intro j hj hne
    rw [hxold j (by rw [fixup_nmarkers, hgn]; omega), fixup_markers_ne _ _ _ hne]
  have hf0 : ((put_location_marker (put_location_marker (put_location_marker
      (put_location_marker s).1).1).1).1.markers s.nmarkers).fixups = 0 := by
    rw [put_markers_ne _ _ (by rw [put_nmarkers, put_nmarkers, put_nmarkers]; omega),
      put_markers_ne _ _ (by rw [put_nmarkers, put_nmarkers]; omega),
      put_markers_ne _ _ (by rw [put_nmarkers]; omega),
      put_markers_self]
  have hf1 : ((put_location_marker (put_location_marker (put_location_marker
      (put_location_marker s).1).1).1).1.markers (s.nmarkers + 1)).fixups = 0 := by
    rw [put_markers_ne _ _ (by rw [put_nmarkers, put_nmarkers, put_nmarkers]; omega),
      put_markers_ne _ _ (by rw [put_nmarkers, put_nmarkers]; omega),
      show s.nmarkers + 1 = (put_location_marker s).1.nmarkers from (put_nmarkers s).symm,
      put_markers_self]
  have hf2 : ((put_location_marker (put_location_marker (put_location_marker
      (put_location_marker s).1).1).1).1.markers (s.nmarkers + 1 + 1)).fixups = 0 := by
    rw [put_markers_ne _ _ (by rw [put_nmarkers, put_nmarkers, put_nmarkers]; omega),
      show s.nmarkers + 1 + 1 =
        (put_location_marker (put_location_marker s).1).1.nmarkers by
          rw [put_nmarkers, put_nmarkers],
      put_markers_self]
  have hf3 : ((put_location_marker (put_location_marker (put_location_marker
      (put_location_marker s).1).1).1).1.markers (s.nmarkers + 1 + 1 + 1)).fixups = 0 := by
    rw [show s.nmarkers + 1 + 1 + 1 = (put_location_marker (put_location_marker
        (put_location_marker s).1).1).1.nmarkers by
          rw [put_nmarkers, put_nmarkers, put_nmarkers],
      put_markers_self]
  refine ⟨?_, ?_, ?_, ?_⟩
  · rw [fixup_icode]
    refine List.IsPrefix.trans ?_ hxpre
    rw [fixup_icode]
    refine List.IsPrefix.trans ?_ hg.2.2
    rw [fixup_icode]
    refine List.IsPrefix.trans ?_ hd.2.2
    rw [fixup_icode]
    refine List.IsPrefix.trans ?_ hb.2.2
    rw [put_icode, put_icode, put_icode, put_icode]
    rw [List.append_assoc, List.append_assoc, List.append_assoc]
    exact List.prefix_append _ _
  · rw [fixup_nmarkers]
    omega
  · intro i hi
    rw [fixup_markers_ne _ _ _ (by omega),
      hxoldm i (by omega) (by omega),
      hgm i (by omega) (by omega), hb.1,
      put_markers_ne _ _ (by rw [put_nmarkers, put_nmarkers, put_nmarkers]; omega),
      put_markers_ne _ _ (by rw [put_nmarkers, put_nmarkers]; omega),
      put_markers_ne _ _ (by rw [put_nmarkers]; omega),
      put_markers_ne _ _ (by omega)]
  · intro i hi hsi
    rw [fixup_nmarkers] at hi
    by_cases h0 : i = s.nmarkers
    · subst h0
      rw [fixup_markers_self]
      dsimp only
      rw [hxoldm s.nmarkers (by omega) (by omega),
        hgm s.nmarkers (by omega) (by omega), hb.1, hf0]
    · rw [fixup_markers_ne _ _ _ h0]
      by_cases h1 : i = s.nmarkers + 1
      · subst h1
        rw [hxold (s.nmarkers + 1) (by rw [fixup_nmarkers, hgn]; omega),
          fixup_markers_self]
        dsimp only
        rw [hgm (s.nmarkers + 1) (by omega) (by omega), hb.1, hf1]
      · by_cases h2 : i = s.nmarkers + 1 + 1
        · subst h2
          rw [hxoldm (s.nmarkers + 1 + 1) (by omega) (by omega),
            hg.1, fixup_markers_ne _ _ _ (by omega), hd.1, fixup_markers_self]
          dsimp only
          rw [hb.1, hf2]
        · by_cases h3 : i = s.nmarkers + 1 + 1 + 1
          · subst h3
            rw [hxoldm (s.nmarkers + 1 + 1 + 1) (by omega) (by omega),
              hg.1, fixup_markers_self]
            dsimp only
            rw [hd.1, fixup_markers_ne _ _ _ (by omega), hb.1, hf3]
          · exact hxnew i hi (by rw [fixup_nmarkers, hgn]; omega)

/-- Fixups never move a marker's placeholder slot. -/
theorem fixup_markers_pos (i j : Nat) (s : parser_state) :
    ((fixup_location_marker i s).markers j).pos = (s.markers j).pos := by
  by_cases h : j = i
  · subst h
    rw [fixup_markers_self]
  · rw [fixup_markers_ne _ _ _ h]

theorem get_token_append_icode (s : parser_state) :
    (get_token_append s).icode = s.icode ++ [.tok s.p_token] := rfl

theorem put_p_token (s : parser_state) :
    (put_location_marker s).1.p_token = s.p_token := rfl

theorem token_bump (s : parser_state) (n : Nat) :
    ({ s with dispatch_count := n } : parser_state).token = s.token := rfl

theorem p_token_bump (s : parser_state) (n : Nat) :
    ({ s with dispatch_count := n } : parser_state).p_token = s.p_token := rfl

theorem statement_resync_icode (s : parser_state) :
    (statement_resync s).icode = s.icode := by
  unfold statement_resync resync
  split <;> rfl

theorem get_token_append_markers (s : parser_state) :
    (get_token_append s).markers = s.markers := rfl

/-- The front of the for statement: the four placeholder slots are emitted
first, in order exit, body-start, condition-start, increment-start, then
the recorded for keyword; afterwards the stream is only appended to and
the slots never move. -/
theorem for_shape_front {s b d g x : parser_state}
    (hab : pure_ok (get_token_append (put_location_marker (put_location_marker
      (put_location_marker (put_location_marker s).1).1).1).1) b)
    (hd : pure_ok (fixup_location_marker (s.nmarkers + 1 + 1) b) d)
    (hg : pure_ok (fixup_location_marker (s.nmarkers + 1 + 1 + 1) d) g)
    (hx : step_ok (fixup_location_marker (s.nmarkers + 1) g) x) :
    (fixup_location_marker s.nmarkers x).icode.take (s.icode.length + 5) =
      s.icode ++ [.marker s.nmarkers, .marker (s.nmarkers + 1),
        .marker (s.nmarkers + 1 + 1), .marker (s.nmarkers + 1 + 1 + 1),
        .tok s.p_token] ∧
    ((fixup_location_marker s.nmarkers x).markers s.nmarkers).pos = s.icode.length ∧
    ((fixup_location_marker s.nmarkers x).markers (s.nmarkers + 1)).pos =
      s.icode.length + 1 ∧
    ((fixup_location_marker s.nmarkers x).markers (s.nmarkers + 1 + 1)).pos =
      s.icode.length + 2 ∧
    ((fixup_location_marker s.nmarkers x).markers (s.nmarkers + 1 + 1 + 1)).pos =
      s.icode.length + 3 := by
  have hu4 : (put_location_marker (put_location_marker (put_location_marker
      (put_location_marker s).1).1).1).1.icode =
      s.icode ++ [.marker s.nmarkers, .marker (s.nmarkers + 1),
        .marker (s.nmarkers + 1 + 1), .marker (s.nmarkers + 1 + 1 + 1)] := by
    simp [put_icode, put_nmarkers]
  have hA : (get_token_append (put_location_marker (put_location_marker
      (put_location_marker (put_location_marker s).1).1).1).1).icode =
      s.icode ++ [.marker s.nmarkers, .marker (s.nmarkers + 1),
        .marker (s.nmarkers + 1 + 1), .marker (s.nmarkers + 1 + 1 + 1),
        .tok s.p_token] := by
    simp [get_token_append_icode, put_icode, put_nmarkers, put_p_token]
  have h2 : b.icode <+: d.icode := by
    have h0 := hd.2.2
    rwa [fixup_icode] at h0
  have h3 : d.icode <+: g.icode := by
    have h0 := hg.2.2
    rwa [fixup_icode] at h0
  have h4 : g.icode <+: x.icode := by
    have h0 := hx.1
    rwa [fixup_icode] at h0
  have hpre : s.icode ++ [.marker s.nmarkers, .marker (s.nmarkers + 1),
      .marker (s.nmarkers + 1 + 1), .marker (s.nmarkers + 1 + 1 + 1),
      .tok s.p_token] <+: x.icode := by
    rw [← hA]
    exact ((hab.2.2.trans h2).trans h3).trans h4
  have hfn : (fixup_location_marker (s.nmarkers + 1) g).nmarkers =
      s.nmarkers + 4 := by
    rw [fixup_nmarkers, hg.2.1, fixup_nmarkers, hd.2.1, fixup_nmarkers, hab.2.1]
    show (put_location_marker (put_location_marker (put_location_marker
      (put_location_marker s).1).1).1).1.nmarkers = s.nmarkers + 4
    rw [put_nmarkers, put_nmarkers, put_nmarkers, put_nmarkers]
  have hpos : ∀ idx, idx < s.nmarkers + 4 → idx ≠ s.nmarkers + 1 →
      (x.markers idx).pos =
        ((put_location_marker (put_location_marker (put_location_marker
          (put_location_marker s).1).1).1).1.markers idx).pos := by
    intro idx hlt hne
    rw [hx.2.2.1 idx (by rw [hfn]; omega), fixup_markers_ne _ _ _ hne,
      hg.1, fixup_markers_pos, hd.1, fixup_markers_pos, hab.1,
      get_token_append_markers]
  have hpos1 : (x.markers (s.nmarkers + 1)).pos =
      ((put_location_marker (put_location_marker (put_location_marker
        (put_location_marker s).1).1).1).1.markers (s.nmarkers + 1)).pos := by
    rw [hx.2.2.1 (s.nmarkers + 1) (by rw [hfn]; omega), fixup_markers_pos,
      hg.1, fixup_markers_pos, hd.1, fixup_markers_pos, hab.1,
      get_token_append_markers]
  have hq0 : ((put_location_marker (put_location_marker (put_location_marker
      (put_location_marker s).1).1).1).1.markers s.nmarkers).pos = s.icode.length := by
    rw [put_markers_ne _ _ (by rw [put_nmarkers, put_nmarkers, put_nmarkers]; omega),
      put_markers_ne _ _ (by rw [put_nmarkers, put_nmarkers]; omega),
      put_markers_ne _ _ (by rw [put_nmarkers]; omega),
      put_markers_self]
  have hq1 : ((put_location_marker (put_location_marker (put_location_marker
      (put_location_marker s).1).1).1).1.markers (s.nmarkers + 1)).pos =
      s.icode.length + 1 := by
    rw [put_markers_ne _ _ (by rw [put_nmarkers, put_nmarkers, put_nmarkers]; omega),
      put_markers_ne _ _ (by rw [put_nmarkers, put_nmarkers]; omega),
      show s.nmarkers + 1 = (put_location_marker s).1.nmarkers from (put_nmarkers s).symm,
      put_markers_self, put_icode]
    simp
  have hq2 : ((put_location_marker (put_location_marker (put_location_marker
      (put_location_marker s).1).1).1).1.markers (s.nmarkers + 1 + 1)).pos =
      s.icode.length + 2 := by
    rw [put_markers_ne _ _ (by rw [put_nmarkers, put_nmarkers, put_nmarkers]; omega),
      show s.nmarkers + 1 + 1 =
        (put_location_marker (put_location_marker s).1).1.nmarkers by
          rw [put_nmarkers, put_nmarkers],
      put_markers_self, put_icode, put_icode]
    simp
  have hq3 : ((put_location_marker (put_location_marker (put_location_marker
      (put_location_marker s).1).1).1).1.markers (s.nmarkers + 1 + 1 + 1)).pos =
      s.icode.length + 3 := by
    rw [show s.nmarkers + 1 + 1 + 1 = (put_location_marker (put_location_marker
        (put_location_marker s).1).1).1.nmarkers by
          rw [put_nmarkers, put_nmarkers, put_nmarkers],
      put_markers_self, put_icode, put_icode, put_icode]
    simp
  refine ⟨?_, ?_, ?_, ?_, ?_⟩
  · rw [fixup_icode]
    obtain ⟨t, ht⟩ := hpre
    rw [← ht]
    have hlen : (s.icode ++ [icode_unit.marker s.nmarkers,
        .marker (s.nmarkers + 1), .marker (s.nmarkers + 1 + 1),
        .marker (s.nmarkers + 1 + 1 + 1), .tok s.p_token]).length =
        s.icode.length + 5 := by simp
    rw [← hlen, List.take_left]
  · rw [fixup_markers_pos, hpos s.nmarkers (by omega) (by omega), hq0]
  · rw [fixup_markers_pos, hpos1, hq1]
  · rw [fixup_markers_pos, hpos (s.nmarkers + 1 + 1) (by omega) (by omega), hq2]
  · rw [fixup_markers_pos, hpos (s.nmarkers + 1 + 1 + 1) (by omega) (by omega), hq3]

/-- The backpatch discipline holds across every parsing routine: whenever a
routine completes, the markers reserved before it are untouched and every
marker reserved during it has been fixed up exactly once. -/
theorem step_ok_all (fuel : Nat) :
    (∀ p s s1, parse_statement fuel p s = some s1 → step_ok s s1) ∧
    (∀ p term s s1, parse_statement_list fuel p term s = some s1 → step_ok s s1) ∧
    (∀ p s s1, parse_DO fuel p s = some s1 → step_ok s s1) ∧
    (∀ p s s1, parse_WHILE fuel p s = some s1 → step_ok s s1) ∧
    (∀ p s s1, parse_IF fuel p s = some s1 → step_ok s s1) ∧
    (∀ p s s1, parse_FOR fuel p s = some s1 → step_ok s s1) ∧
    (∀ p s s1, parse_SWITCH fuel p s = some s1 → step_ok s s1) ∧
    (∀ p s s1, parse_compound fuel p s = some s1 → step_ok s s1) ∧
    (∀ p t s s1, parse_case_label fuel p t s = some s1 → step_ok s s1) := by
  induction fuel with
  | zero =>
    refine ⟨fun p s s1 h => ?_, fun p term s s1 h => ?_, fun p s s1 h => ?_,
      fun p s s1 h => ?_, fun p s s1 h => ?_, fun p s s1 h => ?_,
      fun p s s1 h => ?_, fun p s s1 h => ?_, fun p t s s1 h => ?_⟩ <;>
      simp [parse_statement, parse_statement_list, parse_DO, parse_WHILE,
        parse_IF, parse_FOR, parse_SWITCH, parse_compound, parse_case_label] at h
  | succ f ih =>
    obtain ⟨ihS, ihL, ihDO, ihWH, ihIF, ihFOR, ihSW, ihCP, ihCL⟩ := ih
    refine ⟨?_, ?_, ?_, ?_, ?_, ?_, ?_, ?_, ?_⟩
    -- parse_statement
    · intro p s s1 h
      simp only [parse_statement, insert_line_marker] at h
      rw [Option.map_eq_some'] at h
      obtain ⟨x, hx, hres⟩ := h
      subst hres
      refine (step_ok_trans (step_ok_of_pure (pure_ok_bump s (s.dispatch_count + 1)))
        ?_).trans_pure (pure_ok_statement_resync x)
      split at hx <;>
        first
          | exact ihDO _ _ _ hx
          | exact ihWH _ _ _ hx
          | exact ihIF _ _ _ hx
          | exact ihFOR _ _ _ hx
          | exact ihSW _ _ _ hx
          | exact ihCP _ _ _ hx
          | (simp only [Option.some.injEq] at hx
             subst hx
             first
               | exact step_ok_of_pure (pure_ok_parse_declarations_or_assignment _ _)
               | exact step_ok_of_pure ((pure_ok_get_token_append _).trans
                   (pure_ok_parse_constant_declaration _ _))
               | exact step_ok_of_pure (pure_ok_get_token_append _)
               | exact step_ok_of_pure (pure_ok_parse_RETURN _ _)
               | exact step_ok_of_pure ((pure_ok_get_token _).trans
                   (pure_ok_parse_execute_directive _ _))
               | exact step_ok_refl _)
    -- parse_statement_list
    · intro p term s s1 h
      simp only [parse_statement_list] at h
      split at h
      · simp at h
      · rename_i s2 hs2
        split at h
        · exact step_ok_trans ((ihS _ _ _ hs2).trans_pure
            (pure_ok_skip_append_semicolons _)) (ihL _ _ _ _ h)
        · simp only [Option.some.injEq] at h
          subst h
          exact (ihS _ _ _ hs2).trans_pure (pure_ok_skip_append_semicolons _)
    -- parse_DO
    · intro p s s1 h
      simp only [parse_DO] at h
      split at h
      · simp at h
      · rename_i s2 hs2
        simp only [Option.some.injEq] at h
        subst h
        rw [put_snd]
        refine step_ok_bracket ?_
        refine ((pure_ok_get_token_append _).trans_step (ihL _ _ _ _ hs2)).trans_pure ?_
        exact (pure_ok_conditional_get_token_append _ _ _).trans
          ((pure_ok_conditional_get_token_append _ _ _).trans
            ((pure_ok_parse_expression _).trans
              ((pure_ok_check_boolean _ _).trans
                (pure_ok_conditional_get_token_append _ _ _))))
    -- parse_WHILE
    · intro p s s1 h
      simp only [parse_WHILE] at h
      split at h
      · simp at h
      · rename_i s2 hs2
        simp only [Option.some.injEq] at h
        subst h
        rw [put_snd]
        refine step_ok_bracket ?_
        exact ((pure_ok_get_token_append _).trans
          ((pure_ok_conditional_get_token_append _ _ _).trans
            ((pure_ok_parse_expression _).trans
              ((pure_ok_check_boolean _ _).trans
                (pure_ok_conditional_get_token_append _ _ _))))).trans_step
          (ihS _ _ _ hs2)
    -- parse_IF
    · intro p s s1 h
      simp only [parse_IF, put_snd] at h
      split at h
      · simp at h
      · rename_i s2 hs2
        have hthen : step_ok (get_token_append (put_location_marker s).1)
            (skip_append_semicolons s2) :=
          ((pure_ok_conditional_get_token_append _ _ _).trans
            ((pure_ok_parse_expression _).trans
              ((pure_ok_check_boolean _ _).trans
                (pure_ok_conditional_get_token_append _ _ _)))).trans_step
            ((ihS _ _ _ hs2).trans_pure (pure_ok_skip_append_semicolons _))
        have hthen2 : step_ok s
            (fixup_location_marker s.nmarkers (skip_append_semicolons s2)) :=
          step_ok_bracket ((pure_ok_get_token_append _).trans_step hthen)
        split at h
        · split at h
          · simp at h
          · rename_i s3 hs3
            simp only [Option.some.injEq] at h
            subst h
            refine step_ok_trans hthen2 (step_ok_bracket ?_)
            exact ((pure_ok_get_token_append _).trans_step (ihS _ _ _ hs3)).trans_pure
              (pure_ok_skip_append_semicolons _)
        · simp only [Option.some.injEq] at h
          subst h
          exact hthen2
    -- parse_FOR
    · intro p s s1 h
      simp only [parse_FOR, put_snd, put_nmarkers] at h
      split at h
      · simp at h
      · rename_i x hx
        simp only [Option.some.injEq] at h
        subst h
        apply step_ok_for_shape
        case hx => exact ihS _ _ _ hx
        case hg =>
          exact (pure_ok_ite _ _ _ _ (pure_ok_parse_expression _)
            (pure_ok_refl _)).trans (pure_ok_conditional_get_token_append _ _ _)
        case hd =>
          exact pure_ok_ite _ _ _ _
            ((pure_ok_parse_expression _).trans
              ((pure_ok_check_boolean _ _).trans
                (pure_ok_conditional_get_token_append _ _ _)))
            (pure_ok_get_token_append _)
        case hb =>
          exact (pure_ok_get_token_append _).trans
            ((pure_ok_conditional_get_token_append _ _ _).trans
              (pure_ok_ite _ _ _ _
                ((pure_ok_parse_declarations_or_assignment _ _).trans
                  (pure_ok_conditional_get_token_append _ _ _))
                (pure_ok_get_token_append _)))
    -- parse_SWITCH
    · intro p s s1 h
      simp only [parse_SWITCH] at h
      refine pure_ok.trans_step ?_ (ihS _ _ _ h)
      exact (pure_ok_get_token_append _).trans
        ((pure_ok_conditional_get_token_append _ _ _).trans
          ((pure_ok_parse_expression _).trans
            ((pure_ok_conditional_get_token_append _ _ _).trans
              (pure_ok_ite _ _ _ _ (pure_ok_cx_error _ _) (pure_ok_refl _)))))
    -- parse_compound
    · intro p s s1 h
      simp only [parse_compound] at h
      split at h
      · simp at h
      · rename_i s2 hs2
        split at h
        · simp only [Option.some.injEq] at h
          subst h
          exact (pure_ok_get_token_append _).trans_step (ihL _ _ _ _ hs2)
        · simp only [Option.some.injEq] at h
          subst h
          exact ((pure_ok_get_token_append _).trans_step (ihL _ _ _ _ hs2)).trans_pure
            (pure_ok_conditional_get_token_append _ _ _)
    -- parse_case_label
    · intro p t s s1 h
      simp only [parse_case_label] at h
      refine pure_ok.trans_step ?_ (ihL _ _ _ _ h)
      exact (pure_ok_get_token_append _).trans
        ((pure_ok_case_label_sign _).trans
          ((pure_ok_case_label_value _ _).trans
            (pure_ok_conditional_get_token_append _ _ _)))

/-- The statement-list driver only stops at the terminator or at
end-of-input. -/
theorem parse_statement_list_post (fuel : Nat) :
    ∀ p term s s1, parse_statement_list fuel p term s = some s1 →
      s1.token = term ∨ s1.token = .tc_end_of_file := by
  induction fuel with
  | zero =>
    intro p term s s1 h
    simp [parse_statement_list] at h
  | succ f ih =>
    intro p term s s1 h
    simp only [parse_statement_list] at h
    split at h
    · simp at h
    · rename_i s2 hs2
      split at h
      · exact ih _ _ _ _ h
      · rename_i hcond
        simp only [Option.some.injEq] at h
        subst h
        by_cases hterm : (skip_append_semicolons s2).token = term
        · exact Or.inl hterm
        · push_neg at hcond
          exact Or.inr (hcond hterm)

/-! Concrete test fixtures: tokens, a symbol table and initial states used
by the concrete runs of the claims. -/

/-- An identifier token. -/
def idt (n : String) : cx_token := ⟨.tc_identifier, n, .ty_dummy⟩

/-- An integer number literal token. -/
def numt : cx_token := ⟨.tc_number, "1", .ty_integer⟩

/-- A keyword or punctuation token. -/
def kw (c : cx_token_code) : cx_token := ⟨c, "", .ty_dummy⟩

/-- A string literal token (the literal text includes its delimiters in the
source scanner, so a character literal has text length three). -/
def strt (v : String) : cx_token := ⟨.tc_string, v, .ty_dummy⟩

/-- A symbol table binding identifiers used by the concrete runs. -/
def symtab0 : List (String × cx_type) :=
  [("b", .ty_boolean), ("x", .ty_integer), ("i", .ty_integer),
   ("j", .ty_integer), ("k", .ty_integer), ("a", .ty_integer),
   ("c", .ty_integer)]

/-- Initial parser state over the fixture symbol table. -/
def st0 (inp : List cx_token) : parser_state :=
  ⟨inp, [], 0, fun _ => ⟨0, none, 0⟩, [], symtab0, 0⟩

/-- An ordinary declared routine returning integer. -/
def pfid0 : cx_symtab_node := ⟨.func_declared, .ty_integer⟩

/-- A standard-iterator routine. -/
def pfid_iter : cx_symtab_node := ⟨.func_std_iterator, .ty_integer⟩

/-- A declared routine returning boolean. -/
def pfid_bool : cx_symtab_node := ⟨.func_declared, .ty_boolean⟩

/-- Tokens of: do a while ( b ) -/
def input_do : List cx_token :=
  [kw .tc_DO, idt "a", kw .tc_WHILE, kw .tc_left_paren, idt "b",
   kw .tc_right_paren]

/-- Tokens of: while ( b ) a -/
def input_while : List cx_token :=
  [kw .tc_WHILE, kw .tc_left_paren, idt "b", kw .tc_right_paren, idt "a"]

/-- Tokens of: if ( b ) a -/
def input_if : List cx_token :=
  [kw .tc_IF, kw .tc_left_paren, idt "b", kw .tc_right_paren, idt "a"]

/-- Tokens of: if ( b ) a else c -/
def input_if_else : List cx_token :=
  [kw .tc_IF, kw .tc_left_paren, idt "b", kw .tc_right_paren, idt "a",
   kw .tc_ELSE, idt "c"]

/-- Tokens of: for ( i = 1 ; i == j ; k ) a -/
def input_for : List cx_token :=
  [kw .tc_FOR, kw .tc_left_paren, idt "i", kw .tc_equal, numt,
   kw .tc_semicolon, idt "i", kw .tc_equal_equal, idt "j", kw .tc_semicolon,
   idt "k", kw .tc_right_paren, idt "a"]

/-- C1: every statement form that reserves markers — do (one), while (one),
if without else (one), if with else (two), for (four) — fixes up every
marker it reserved exactly once before its parse routine returns, never
fixes up a previously reserved marker again, and performs exactly as many
fixups as reservations.  The universal conjuncts state the discipline
(step_ok: all markers reserved during the parse end with fixup count
exactly one, and markers reserved before it are untouched); the concrete
conjuncts pin the reservation counts of each form on canonical inputs
whose substatements reserve no markers of their own. -/
theorem C1_marker_balance :
    (∀ fuel p s s1, parse_DO fuel p s = some s1 → step_ok s s1) ∧
    (∀ fuel p s s1, parse_WHILE fuel p s = some s1 → step_ok s s1) ∧
    (∀ fuel p s s1, parse_IF fuel p s = some s1 → step_ok s s1) ∧
    (∀ fuel p s s1, parse_FOR fuel p s = some s1 → step_ok s s1) ∧
    ((parse_DO 20 pfid0 (st0 input_do)).map parser_state.nmarkers = some 1) ∧
    ((parse_WHILE 20 pfid0 (st0 input_while)).map parser_state.nmarkers = some 1) ∧
    ((parse_IF 20 pfid0 (st0 input_if)).map parser_state.nmarkers = some 1) ∧
    ((parse_IF 20 pfid0 (st0 input_if_else)).map parser_state.nmarkers = some 2) ∧
    ((parse_FOR 20 pfid0 (st0 input_for)).map parser_state.nmarkers = some 4) := by
  refine ⟨fun fuel p s s1 h => (step_ok_all fuel).2.2.1 p s s1 h,
    fun fuel p s s1 h => (step_ok_all fuel).2.2.2.1 p s s1 h,
    fun fuel p s s1 h => (step_ok_all fuel).2.2.2.2.1 p s s1 h,
    fun fuel p s s1 h => (step_ok_all fuel).2.2.2.2.2.1 p s s1 h,
    by decide, by decide, by decide, by decide, by decide⟩

/-- C1 witness: the marker discipline instantiated on the concrete do-while
run. -/
theorem C1_marker_balance_witness :
    step_ok (st0 input_do)
      ((parse_DO 20 pfid0 (st0 input_do)).getD (st0 input_do)) :=
  C1_marker_balance.1 20 pfid0 (st0 input_do) _ (by rfl)

/-- The final state of the canonical if/else run: if ( b ) a else c. -/
def if_else_result : parser_state :=
  (parse_IF 20 pfid0 (st0 input_if_else)).getD (st0 [])

/-- C2 counterexample: on if ( b ) a else c, the else branch S2 emits
exactly one unit, at stream position 8 (the skip-else placeholder slot sits
at position 6 and the recorded else keyword at position 7), but the
false-branch marker is fixed up to position 6, the skip-else placeholder
slot — not to the first position of S2's emitted code. -/
theorem C2_if_else_counterexample :
    (parse_IF 20 pfid0 (st0 input_if_else)).isSome = true ∧
    if_else_result.icode.drop 8 = [.tok (idt "c")] ∧
    (if_else_result.markers 0).target = some 6 ∧
    (if_else_result.markers 0).target ≠ some 8 := by
  refine ⟨by decide, by decide, by decide, by decide⟩

/-- C2 amended: for if ( E ) S1 else S2, the false-branch marker is fixed
up to the position of the skip-else placeholder slot — which the skip-else
placeholder and the recorded else keyword separate from the first position
of S2's emitted code by two units — and the skip-else marker is fixed up to
the position immediately after S2's emitted code.  Shown on the canonical
run if ( b ) a else c: the false-branch marker's target, 6, is the
skip-else placeholder's slot position; the else keyword sits at 7 and S2's
code at 8; the skip-else marker's target, 9, is the position immediately
after S2's code. -/
theorem C2_if_else_marker_targets :
    if_else_result.icode =
      [.marker 0, .tok (kw .tc_IF), .tok (kw .tc_left_paren), .tok (idt "b"),
       .tok (kw .tc_right_paren), .tok (idt "a"), .marker 1,
       .tok (kw .tc_ELSE), .tok (idt "c")] ∧
    (if_else_result.markers 0).target = some 6 ∧
    (if_else_result.markers 1).pos = 6 ∧
    (if_else_result.markers 1).target = some 9 ∧
    if_else_result.icode.length = 9 := by
  refine ⟨by decide, by decide, by decide, by decide, by decide⟩

/-- The final state of the canonical for run: for ( i = 1 ; i == j ; k ) a. -/
def for_result : parser_state :=
  (parse_FOR 20 pfid0 (st0 input_for)).getD (st0 [])

/-- C3: parse_FOR reserves four markers in the order exit, body-start,
condition-start, increment-start, all before the for keyword is consumed
(the first five emitted units of any completed for parse are the four
placeholder slots, in that order, followed by the recorded for token); and
on the canonical run for ( i = 1 ; i == j ; k ) a the condition-start
marker is fixed up to the first position of the condition's code (10), the
increment-start marker to the first position of the increment's code (14),
the body-start marker to the first position of the body's code (16), and
the exit marker to the position after the body (17), so the stream holds
the init code, then the condition code, then the increment code, then the
body code, with the body last. -/
theorem C3_for_markers_and_emission_order :
    (∀ fuel p s s1, parse_FOR (fuel + 1) p s = some s1 →
      s1.icode.take (s.icode.length + 5) =
        s.icode ++ [.marker s.nmarkers, .marker (s.nmarkers + 1),
          .marker (s.nmarkers + 1 + 1), .marker (s.nmarkers + 1 + 1 + 1),
          .tok s.p_token] ∧
      (s1.markers s.nmarkers).pos = s.icode.length ∧
      (s1.markers (s.nmarkers + 1)).pos = s.icode.length + 1 ∧
      (s1.markers (s.nmarkers + 1 + 1)).pos = s.icode.length + 2 ∧
      (s1.markers (s.nmarkers + 1 + 1 + 1)).pos = s.icode.length + 3) ∧
    for_result.icode =
      [.marker 0, .marker 1, .marker 2, .marker 3, .tok (kw .tc_FOR),
       .tok (kw .tc_left_paren), .tok (idt "i"), .tok (kw .tc_equal),
       .tok numt, .tok (kw .tc_semicolon), .tok (idt "i"),
       .tok (kw .tc_equal_equal), .tok (idt "j"), .tok (kw .tc_semicolon),
       .tok (idt "k"), .tok (kw .tc_right_paren), .tok (idt "a")] ∧
    (for_result.markers 2).target = some 10 ∧
    (for_result.markers 3).target = some 14 ∧
    (for_result.markers 1).target = some 16 ∧
    (for_result.markers 0).target = some 17 := by
  refine ⟨?_, by decide, by decide, by decide, by decide, by decide⟩
  intro fuel p s s1 h
  simp only [parse_FOR, put_snd, put_nmarkers] at h
  split at h
  · simp at h
  · rename_i x hx
    simp only [Option.some.injEq] at h
    subst h
    apply for_shape_front
    case hx => exact (step_ok_all fuel).1 p _ x hx
    case hg =>
      exact (pure_ok_ite _ _ _ _ (pure_ok_parse_expression _)
        (pure_ok_refl _)).trans (pure_ok_conditional_get_token_append _ _ _)
    case hd =>
      exact pure_ok_ite _ _ _ _
        ((pure_ok_parse_expression _).trans
          ((pure_ok_check_boolean _ _).trans
            (pure_ok_conditional_get_token_append _ _ _)))
        (pure_ok_get_token_append _)
    case hab =>
      exact (pure_ok_conditional_get_token_append _ _ _).trans
        (pure_ok_ite _ _ _ _
          ((pure_ok_parse_declarations_or_assignment _ _).trans
            (pure_ok_conditional_get_token_append _ _ _))
          (pure_ok_get_token_append _))

/-- Tokens of an unclosed compound block: { a -/
def input_unclosed : List cx_token := [kw .tc_left_bracket, idt "a"]

/-- C3 witness: the for-front facts instantiated on the canonical for run. -/
theorem C3_for_markers_witness :
    for_result.icode.take 5 =
      [.marker 0, .marker 1, .marker 2, .marker 3, .tok (kw .tc_FOR)] ∧
    (for_result.markers 0).pos = 0 ∧
    (for_result.markers 1).pos = 1 ∧
    (for_result.markers 2).pos = 2 ∧
    (for_result.markers 3).pos = 3 :=
  C3_for_markers_and_emission_order.1 19 pfid0 (st0 input_for) for_result (by rfl)

/-- C4: a compound block of a standard-iterator routine neither requires
nor consumes the closing bracket — its parse is exactly the opening
bracket consume followed by the statement list — so it completes without
error even when the closing bracket is absent, while for any other routine
kind an absent closing bracket makes the block parse report exactly the
missing-right-bracket error. -/
theorem C4_std_iterator_compound :
    (∀ fuel p s, p.which = .func_std_iterator →
      parse_compound (fuel + 1) p s =
        parse_statement_list fuel p .tc_right_bracket (get_token_append s)) ∧
    (∀ fuel p s s2, p.which ≠ .func_std_iterator →
      parse_statement_list fuel p .tc_right_bracket (get_token_append s) = some s2 →
      s2.token ≠ .tc_right_bracket →
      parse_compound (fuel + 1) p s =
        some (cx_error .err_missing_right_bracket s2)) ∧
    ((parse_compound 20 pfid_iter (st0 input_unclosed)).map parser_state.errors =
      some []) ∧
    ((parse_compound 20 pfid0 (st0 input_unclosed)).map parser_state.errors =
      some [.err_missing_right_bracket]) := by
  refine ⟨?_, ?_, by decide, by decide⟩
  · intro fuel p s hw
    simp only [parse_compound]
    cases hres : parse_statement_list fuel p .tc_right_bracket (get_token_append s) with
    | none => simp [hres]
    | some s2 => simp [hres, hw]
  · intro fuel p s s2 hw hres htok
    simp only [parse_compound, hres]
    rw [if_neg hw]
    simp [conditional_get_token_append, htok]

/-- C4 witness: the standard-iterator equation and the
missing-right-bracket error instantiated on the unclosed block { a. -/
theorem C4_std_iterator_compound_witness :
    parse_compound 20 pfid_iter (st0 input_unclosed) =
      parse_statement_list 19 pfid_iter .tc_right_bracket
        (get_token_append (st0 input_unclosed)) ∧
    parse_compound 20 pfid0 (st0 input_unclosed) =
      some (cx_error .err_missing_right_bracket
        ((parse_statement_list 19 pfid0 .tc_right_bracket
          (get_token_append (st0 input_unclosed))).getD (st0 []))) :=
  ⟨C4_std_iterator_compound.1 19 pfid_iter (st0 input_unclosed) rfl,
   C4_std_iterator_compound.2.1 19 pfid0 (st0 input_unclosed) _
     (by decide) (by rfl) (by decide)⟩

/-- Tokens of: while ( 1 + 1 ) { } -/
def input_while_nonbool : List cx_token :=
  [kw .tc_WHILE, kw .tc_left_paren, numt, kw .tc_plus, numt,
   kw .tc_right_paren, kw .tc_left_bracket, kw .tc_right_bracket]

/-- Tokens of: do a while ( 1 + 1 ) -/
def input_do_nonbool : List cx_token :=
  [kw .tc_DO, idt "a", kw .tc_WHILE, kw .tc_left_paren, numt, kw .tc_plus,
   numt, kw .tc_right_paren]

/-- Tokens of: if ( 1 + 1 ) a -/
def input_if_nonbool : List cx_token :=
  [kw .tc_IF, kw .tc_left_paren, numt, kw .tc_plus, numt,
   kw .tc_right_paren, idt "a"]

/-- Tokens of: for ( i = 1 ; 1 + 1 ; k ) a -/
def input_for_nonbool : List cx_token :=
  [kw .tc_FOR, kw .tc_left_paren, idt "i", kw .tc_equal, numt,
   kw .tc_semicolon, numt, kw .tc_plus, numt, kw .tc_semicolon, idt "k",
   kw .tc_right_paren, idt "a"]

/-- C5: the boolean condition check reports exactly one incompatible-types
error when the condition's type is not boolean and none when it is, and
each of while ( 1 + 1 ) { }, do a while ( 1 + 1 ), if ( 1 + 1 ) a and
for ( i = 1 ; 1 + 1 ; k ) a parses to completion with exactly one
incompatible-types error. -/
theorem C5_nonboolean_condition :
    (∀ t s, t ≠ .ty_boolean →
      (check_boolean t s).errors = s.errors ++ [.err_incompatible_types]) ∧
    (∀ s, (check_boolean .ty_boolean s).errors = s.errors) ∧
    ((parse_WHILE 20 pfid0 (st0 input_while_nonbool)).map parser_state.errors =
      some [.err_incompatible_types]) ∧
    ((parse_DO 20 pfid0 (st0 input_do_nonbool)).map parser_state.errors =
      some [.err_incompatible_types]) ∧
    ((parse_IF 20 pfid0 (st0 input_if_nonbool)).map parser_state.errors =
      some [.err_incompatible_types]) ∧
    ((parse_FOR 20 pfid0 (st0 input_for_nonbool)).map parser_state.errors =
      some [.err_incompatible_types]) := by
  refine ⟨?_, ?_, by decide, by decide, by decide, by decide⟩
  · intro t s ht
    simp [check_boolean, ht, cx_error]
  · intro s
    simp [check_boolean]

/-- C5 witness: the non-boolean check error instantiated at integer type. -/
theorem C5_nonboolean_condition_witness :
    (check_boolean .ty_integer (st0 [])).errors =
      (st0 []).errors ++ [.err_incompatible_types] :=
  C5_nonboolean_condition.1 .ty_integer (st0 []) (by decide)

/-- A one-binding symbol table state for the switch selector test:
switch ( v ) a with v bound to the given type. -/
def st_switch (t : cx_type) : parser_state :=
  ⟨[kw .tc_SWITCH, kw .tc_left_paren, idt "v", kw .tc_right_paren, idt "a"],
   [], 0, fun _ => ⟨0, none, 0⟩, [], [("v", t)], 0⟩

/-- Tokens of: switch ( x ) a k -/
def input_switch_two : List cx_token :=
  [kw .tc_SWITCH, kw .tc_left_paren, idt "x", kw .tc_right_paren, idt "a",
   idt "k"]

/-- Tokens of: switch x ) a  (missing opening parenthesis) -/
def input_switch_noparen : List cx_token :=
  [kw .tc_SWITCH, idt "x", kw .tc_right_paren, idt "a"]

/-- C6: for every selector type, the switch parse reports an
incompatible-types error exactly when the selector's base type is not
integer, not character and not an enumeration; it parses exactly one
controlled statement (one dispatcher invocation, the following statement
left unconsumed) and builds no case dispatch table; and a missing opening
parenthesis is reported. -/
theorem C6_switch_selector :
    (∀ t : cx_type,
      (parse_SWITCH 20 pfid0 (st_switch t)).map parser_state.errors =
        some (if t.base_type = .ty_integer ∨ t.base_type = .ty_char ∨
            t.base_type.form = .fc_enum then []
          else [.err_incompatible_types])) ∧
    ((parse_SWITCH 20 pfid0 (st0 input_switch_two)).map parser_state.input =
      some [idt "k"]) ∧
    ((parse_SWITCH 20 pfid0 (st0 input_switch_two)).map
      parser_state.dispatch_count = some 1) ∧
    ((parse_SWITCH 20 pfid0 (st0 input_switch_noparen)).map parser_state.errors =
      some [.err_missing_left_paren]) := by
  refine ⟨?_, by decide, by decide, by decide⟩
  intro t
  cases t <;> decide

/-- Tokens of: a ; ; ; b } -/
def input_sep : List cx_token :=
  [idt "a", kw .tc_semicolon, kw .tc_semicolon, kw .tc_semicolon, idt "b",
   kw .tc_right_bracket]

/-- C7: the statement-list driver stops exactly at the caller-supplied
terminator or at end-of-input (so it never iterates past end-of-input),
and on a ; ; ; b followed by the terminator it dispatches exactly two
statements and stops at the terminator. -/
theorem C7_statement_list_driver :
    (∀ fuel p term s s1, parse_statement_list fuel p term s = some s1 →
      s1.token = term ∨ s1.token = .tc_end_of_file) ∧
    ((parse_statement_list 20 pfid0 .tc_right_bracket (st0 input_sep)).map
      parser_state.dispatch_count = some 2) ∧
    ((parse_statement_list 20 pfid0 .tc_right_bracket (st0 input_sep)).map
      parser_state.input = some [kw .tc_right_bracket]) :=
  ⟨fun fuel => parse_statement_list_post fuel, by decide, by decide⟩

/-- C7 witness: the driver postcondition instantiated on the concrete
separator-tolerant run. -/
theorem C7_statement_list_driver_witness :
    ((parse_statement_list 20 pfid0 .tc_right_bracket (st0 input_sep)).getD
        (st0 [])).token = .tc_right_bracket ∨
    ((parse_statement_list 20 pfid0 .tc_right_bracket (st0 input_sep)).getD
        (st0 [])).token = .tc_end_of_file :=
  C7_statement_list_driver.1 20 pfid0 .tc_right_bracket (st0 input_sep) _ (by rfl)

/-- Tokens of: return 1 -/
def input_return : List cx_token := [kw .tc_RETURN, numt]

/-- C8: the return parse consumes the return keyword, parses the returned
expression, and reports exactly one incompatible-types error when the
expression's type is not assignment compatible with the enclosing
routine's declared return type, and none when it is. -/
theorem C8_return_type_check :
    (∀ p s, (parse_RETURN p s).errors = s.errors ++
      (if assignment_compatible p.p_type
          (parse_expression (get_token_append s)).2 = true then []
        else [.err_incompatible_types])) ∧
    ((parse_RETURN pfid_bool (st0 input_return)).errors =
      [.err_incompatible_types]) ∧
    ((parse_RETURN pfid0 (st0 input_return)).errors = []) := by
  refine ⟨?_, by decide, by decide⟩
  intro p s
  simp only [parse_RETURN, check_assignment_type_compatible]
  split <;> rename_i hcond <;>
    simp_all [parse_expression, get_token_append, cx_error]

/-- Tokens of: # inc ; -/
def input_pound : List cx_token :=
  [kw .tc_pound, idt "include_name", kw .tc_semicolon]

/-- Tokens of: break ; -/
def input_break : List cx_token := [kw .tc_BREAK, kw .tc_semicolon]

/-- C9: when the dispatcher sees the directive marker it consumes it with
the non-recording advance, so a pound-dispatched statement leaves the
intermediate code stream exactly unchanged (the marker never appears in
it), whereas the dispatcher-consumed break keyword is recorded into the
stream, and the const keyword is recorded before the constant declaration
is parsed. -/
theorem C9_directive_marker_not_recorded :
    (∀ s, (get_token s).icode = s.icode) ∧
    (∀ fuel p s s1, s.token = .tc_pound →
      parse_statement (fuel + 1) p s = some s1 → s1.icode = s.icode) ∧
    (∀ fuel p s s1, s.token = .tc_BREAK →
      parse_statement (fuel + 1) p s = some s1 →
      s1.icode = s.icode ++ [.tok s.p_token]) ∧
    (∀ fuel p s s1, s.token = .tc_CONST →
      parse_statement (fuel + 1) p s = some s1 →
      s.icode ++ [.tok s.p_token] <+: s1.icode) := by
  refine ⟨fun s => rfl, ?_, ?_, ?_⟩
  · intro fuel p s s1 htok h
    simp only [parse_statement, insert_line_marker, token_bump, htok,
      Option.map_some', Option.some.injEq] at h
    subst h
    rw [statement_resync_icode]
    rfl
  · intro fuel p s s1 htok h
    simp only [parse_statement, insert_line_marker, token_bump, htok,
      Option.map_some', Option.some.injEq] at h
    subst h
    rw [statement_resync_icode]
    rfl
  · intro fuel p s s1 htok h
    simp only [parse_statement, insert_line_marker, token_bump, htok,
      Option.map_some', Option.some.injEq] at h
    subst h
    rw [statement_resync_icode]
    exact (pure_ok_parse_constant_declaration p
      (get_token_append { s with dispatch_count := s.dispatch_count + 1 })).2.2

/-- C9 witness: the recording contrast instantiated on concrete pound and
break statements. -/
theorem C9_directive_marker_witness :
    ((parse_statement 20 pfid0 (st0 input_pound)).getD (st0 [])).icode =
      (st0 input_pound).icode ∧
    ((parse_statement 20 pfid0 (st0 input_break)).getD (st0 [])).icode =
      (st0 input_break).icode ++ [.tok (st0 input_break).p_token] :=
  ⟨C9_directive_marker_not_recorded.2.1 19 pfid0 (st0 input_pound) _
      (by decide) (by rfl),
   C9_directive_marker_not_recorded.2.2.1 19 pfid0 (st0 input_break) _
      (by decide) (by rfl)⟩

/-- Tokens of: case <string literal> : break -/
def input_case (lit : String) : List cx_token :=
  [kw .tc_CASE, strt lit, kw .tc_colon, kw .tc_BREAK]

/-- C10: a case value that is a string token is never consumed, whether
valid (literal length exactly three, no leading sign) or invalid: the
recorded stream holds only the case keyword, the invalid-constant error is
reported exactly for the invalid lengths, and the required-colon check,
still looking at the string token, reports a missing-colon error even
though a colon immediately follows in the input. -/
theorem C10_case_label_string_not_consumed :
    ∀ (lit : String) (fuel : Nat),
      (parse_case_label (fuel + 3) pfid0 .ty_integer
          (st0 (input_case lit))).map parser_state.errors =
        some ((if lit.length = 3 then [] else [.err_invalid_constant]) ++
          [.err_missing_colon]) ∧
      (parse_case_label (fuel + 3) pfid0 .ty_integer
          (st0 (input_case lit))).map parser_state.input =
        some [kw .tc_BREAK] ∧
      (parse_case_label (fuel + 3) pfid0 .ty_integer
          (st0 (input_case lit))).map parser_state.icode =
        some [.tok (kw .tc_CASE)] := by
  intro lit fuel
  by_cases hl : lit.length = 3 <;>
    simp [hl, parse_case_label, parse_statement_list, parse_statement,
      case_label_sign, case_label_value, conditional_get_token_append,
      get_token_append, get_token, cx_error, skip_append_semicolons, resync,
      statement_resync, insert_line_marker, resync_input, token_in,
      tokenlist_unary_ops, tokenlist_statement_follow,
      tokenlist_statement_start, parser_state.token, parser_state.p_token,
      search_all, st0, input_case, strt, kw, eof_token, symtab0]

end CxStmt
